import Mathlib

/-!
Verification of the venice-proxy gateway relay (gateway.ts and the
streaming variant in part_000) against its specification.

The embedding models decoded JSON request/response bodies as a closed
inductive of JavaScript values.  Numbers are modelled as integers:
no claim depends on float behavior, and NaN does not occur in any
decoded JSON body.  The value JsonValue.undefined models the JS value
`undefined`, which never occurs in a JSON.parse result but does arise
from property access on missing keys.
-/

inductive JsonValue where
  | null
  | undefined
  | bool (b : Bool)
  | num (n : Int)
  | str (s : String)
  | arr (elems : List JsonValue)
  | obj (fields : List (String × JsonValue))

/-- JS truthiness of a value ( `if (v)` ). Arrays and objects are always
truthy; empty string, zero, false, null and undefined are falsy. -/
def truthy : JsonValue → Bool
  | .null => false
  | .undefined => false
  | .bool b => b
  | .num n => n != 0
  | .str s => s != ""
  | .arr _ => true
  | .obj _ => true

/-- JS `typeof v === "object"`: true for objects, arrays and null. -/
def typeofIsObject : JsonValue → Bool
  | .null => true
  | .arr _ => true
  | .obj _ => true
  | _ => false

/-- JS `Array.isArray(v)`. -/
def isArr : JsonValue → Bool
  | .arr _ => true
  | _ => false

/-- First-match lookup in an object field list (JSON-decoded objects
have unique keys, so first match and JS lookup agree). -/
def lookupField : List (String × JsonValue) → String → JsonValue
  | [], _ => .undefined
  | p :: fs, k => if p.1 == k then p.2 else lookupField fs k

/-- Property access `v.k` on a non-nullish value: the field value on an
object, undefined otherwise (missing keys, arrays, primitives). -/
def getField : JsonValue → String → JsonValue
  | .obj fs, k => lookupField fs k
  | _, _ => .undefined

/-- Optional-chained access `v?.k`: undefined when v is nullish, plain
access otherwise.  (Plain access on a nullish value throws in JS; the
call sites that can receive a nullish value are modelled with Option.) -/
def optGet : JsonValue → String → JsonValue
  | .null, _ => .undefined
  | .undefined, _ => .undefined
  | v, k => getField v k

/-- Optional-chained index access `v?.[0]`. -/
def optIdx0 : JsonValue → JsonValue
  | .arr xs => (xs.get? 0).getD .undefined
  | .obj fs => getField (.obj fs) "0"
  | .str s =>
      match s.toList with
      | [] => .undefined
      | c :: _ => .str (String.mk [c])
  | _ => .undefined

/-- JS `"k" in v`. -/
def hasKey : JsonValue → String → Bool
  | .obj fs, k => fs.any (fun p => p.1 == k)
  | _, _ => false

/-- JS `a || b`. -/
def jsOr (a b : JsonValue) : JsonValue :=
  if truthy a then a else b

/-- JS `a ?? b` (nullish coalescing). -/
def jsNullish (a b : JsonValue) : JsonValue :=
  match a with
  | .null => b
  | .undefined => b
  | v => v

/-- JS property assignment `o.k = v` on the field list of an object:
replaces the value in place when the key exists, appends otherwise. -/
def setField (fs : List (String × JsonValue)) (k : String) (v : JsonValue) :
    List (String × JsonValue) :=
  if fs.any (fun p => p.1 == k) then
    fs.map (fun p => if p.1 == k then (k, v) else p)
  else
    fs ++ [(k, v)]

/-- The keys of an object value, in insertion order. -/
def objKeys : JsonValue → List String
  | .obj fs => fs.map (fun p => p.1)
  | _ => []

def hexDigit (n : Nat) : Char :=
  if n < 10 then Char.ofNat (48 + n) else Char.ofNat (87 + n)

def hex4 (n : Nat) : String :=
  String.mk [hexDigit (n / 4096 % 16), hexDigit (n / 256 % 16),
             hexDigit (n / 16 % 16), hexDigit (n % 16)]

/-- Escaping of one character inside a JSON string literal, as
JSON.stringify performs it. -/
def jsonEscapeChar (c : Char) : String :=
  if c = Char.ofNat 34 then "\\\""
  else if c = Char.ofNat 92 then "\\\\"
  else if c = Char.ofNat 10 then "\\n"
  else if c = Char.ofNat 13 then "\\r"
  else if c = Char.ofNat 9 then "\\t"
  else if c.toNat = 8 then "\\b"
  else if c.toNat = 12 then "\\f"
  else if c.toNat < 32 then "\\u" ++ hex4 c.toNat
  else String.singleton c

def jsonQuote (s : String) : String :=
  "\"" ++ String.join (s.toList.map jsonEscapeChar) ++ "\""

/- JSON.stringify.  Undefined-valued object fields are skipped and an
undefined array element serializes as null, as in JS; a bare undefined
(which returns the JS value undefined, not a string) never reaches a
stringify call in the modelled code. -/
mutual

def jsonStringify : JsonValue → String
  | .null => "null"
  | .undefined => "null"
  | .bool true => "true"
  | .bool false => "false"
  | .num n => toString n
  | .str s => jsonQuote s
  | .arr xs => "[" ++ String.intercalate "," (jsonElemPieces xs) ++ "]"
  | .obj fs => "\x7b" ++ String.intercalate "," (jsonFieldPieces fs) ++ "\x7d"

def jsonElemPieces : List JsonValue → List String
  | [] => []
  | x :: xs => jsonStringify x :: jsonElemPieces xs

def jsonFieldPieces : List (String × JsonValue) → List String
  | [] => []
  | (_, .undefined) :: fs => jsonFieldPieces fs
  | (k, v) :: fs => (jsonQuote k ++ ":" ++ jsonStringify v) :: jsonFieldPieces fs

end

/- JS string conversion as performed by a template literal
( String(v) ): arrays join their elements with commas, where a null or
undefined element contributes the empty string; objects print as
"[object Object]".  Only the string case is exercised by the gateway. -/
mutual

def jsTemplateStr : JsonValue → String
  | .null => "null"
  | .undefined => "undefined"
  | .bool true => "true"
  | .bool false => "false"
  | .num n => toString n
  | .str s => s
  | .arr xs => jsArrJoin xs
  | .obj _ => "[object Object]"

def jsArrJoin : List JsonValue → String
  | [] => ""
  | [.null] => ""
  | [.undefined] => ""
  | [x] => jsTemplateStr x
  | .null :: xs => "," ++ jsArrJoin xs
  | .undefined :: xs => "," ++ jsArrJoin xs
  | x :: xs => jsTemplateStr x ++ "," ++ jsArrJoin xs

end

/-- Whether the first character list starts the second. -/
def startsList : List Char → List Char → Bool
  | [], _ => true
  | _ :: _, [] => false
  | a :: as, b :: bs => a == b && startsList as bs

/-- Whether the first character list occurs inside the second. -/
def occursList (pat : List Char) : List Char → Bool
  | [] => startsList pat []
  | c :: rest => startsList pat (c :: rest) || occursList pat rest

/-- Whether pat occurs as a substring of s. -/
def containsSubstr (s pat : String) : Bool :=
  occursList pat.toList s.toList

/- Whether the string pat occurs anywhere inside a JSON value: as a
substring of any string leaf or of any object key. Used to state that a
piece of text is, or is not, preserved in a response body. -/
mutual

def mentionsStr (pat : String) : JsonValue → Bool
  | .str s => containsSubstr s pat
  | .arr xs => mentionsList pat xs
  | .obj fs => mentionsFields pat fs
  | _ => false

def mentionsList (pat : String) : List JsonValue → Bool
  | [] => false
  | x :: xs => mentionsStr pat x || mentionsList pat xs

def mentionsFields (pat : String) : List (String × JsonValue) → Bool
  | [] => false
  | (k, v) :: fs => containsSubstr k pat || mentionsStr pat v || mentionsFields pat fs

end

/-- JS strict equality `v === "lit"` against a string literal. -/
def strictEqStr : JsonValue → String → Bool
  | .str s, t => s == t
  | _, _ => false

/-- JS `typeof v === "undefined"`. -/
def isUndef : JsonValue → Bool
  | .undefined => true
  | _ => false

/-- The default model identifier:
`process.env.DEFAULT_CHAT_MODEL || "venice-uncensored"`, where the
environment variable is an optional string and the empty string is
falsy. -/
def defaultModel : Option String → String
  | none => "venice-uncensored"
  | some s => if s = "" then "venice-uncensored" else s

/-- The normalized chat body built by sanitizeChatBody
(`{ model, messages, stream }`). -/
structure SanitizedChat where
  model : JsonValue
  messages : List JsonValue
  stream : Bool

/-- `Array.isArray(v) ? v : []` viewed as a list. -/
def asArrayList : JsonValue → List JsonValue
  | .arr xs => xs
  | _ => []

/-- gateway.ts sanitizeChatBody: returns the all-defaults body when b is
not a non-null object, and otherwise
`{ model: model || DEFAULT, messages: Array.isArray(messages) ? messages : [], stream: false }`. -/
def sanitizeChatBody (env : Option String) (b : JsonValue) : SanitizedChat :=
  if truthy b && typeofIsObject b then
    { model := jsOr (getField b "model") (.str (defaultModel env)),
      messages := asArrayList (getField b "messages"),
      stream := false }
  else
    { model := .str (defaultModel env), messages := [], stream := false }

/-- The JSON value serialized and posted upstream
( `JSON.stringify(sanitizedBody)` ), with the object-literal key order
model, messages, stream. -/
def SanitizedChat.toJson (c : SanitizedChat) : JsonValue :=
  .obj [("model", c.model), ("messages", .arr c.messages), ("stream", .bool c.stream)]

/-- part_000 maybeInjectDefaultModel: returns the body unchanged when
`b?.messages` is not an array; otherwise injects the default model when
`!b.model` and sets stream to false only when `typeof b.stream` is
undefined, mutating the body in place (all other fields kept). -/
def injectModelField (env : Option String) (fs : List (String × JsonValue)) :
    List (String × JsonValue) :=
  if truthy (getField (.obj fs) "model") then fs
  else setField fs "model" (.str (defaultModel env))

def injectStreamField (fs : List (String × JsonValue)) :
    List (String × JsonValue) :=
  if isUndef (getField (.obj fs) "stream") then setField fs "stream" (.bool false)
  else fs

def maybeInjectDefaultModel (env : Option String) (b : JsonValue) : JsonValue :=
  if !(isArr (optGet b "messages")) then b
  else
    match b with
    | .obj fs => .obj (injectStreamField (injectModelField env fs))
    | v => v

/-- gateway.ts isJsonRpc:
`b && typeof b === "object" && b.jsonrpc === "2.0" && "method" in b`. -/
def isJsonRpc (b : JsonValue) : Bool :=
  truthy b && typeofIsObject b && strictEqStr (getField b "jsonrpc") "2.0" &&
    hasKey b "method"

/-- gateway.ts isChatPayload:
`b && typeof b === "object" && Array.isArray(b.messages)`. -/
def isChatPayload (b : JsonValue) : Bool :=
  truthy b && typeofIsObject b && isArr (getField b "messages")

/-- The shape assigned to a decoded body by the payload classifier. -/
inductive Classified where
  | rpc
  | chat
  | invalid
deriving DecidableEq

/-- The classification implicit in the route handler: the JSON-RPC check
runs first, then the chat-payload check, otherwise the body is
invalid. -/
def classify (b : JsonValue) : Classified :=
  if isJsonRpc b then .rpc
  else if isChatPayload b then .chat
  else .invalid

/-- The upstream content value that sanitizeChoice coerces: the content
field of `choice.message ?? choice.delta ?? {}`. -/
def upstreamContent (choice : JsonValue) : JsonValue :=
  getField (jsNullish (getField choice "message")
             (jsNullish (getField choice "delta") (.obj []))) "content"

/-- gateway.ts sanitizeChoice.  Property access on a nullish choice
throws a TypeError in JS, modelled as none; every other input yields a
normalized choice object. -/
def sanitizeChoice (choice : JsonValue) : Option JsonValue :=
  match choice with
  | .null => none
  | .undefined => none
  | c =>
    let idx : JsonValue :=
      match getField c "index" with
      | .num n => .num n
      | _ => .num 0
    let fr := jsNullish (getField c "finish_reason")
                (jsNullish (getField c "stop_reason") (.str "stop"))
    let msg := jsNullish (getField c "message")
                 (jsNullish (getField c "delta") (.obj []))
    let role := jsNullish (getField msg "role") (.str "assistant")
    let content : JsonValue :=
      match getField msg "content" with
      | .str s => .str s
      | v => if truthy v then .str (jsonStringify v) else .str ""
    some (.obj [("index", idx),
                ("message", .obj [("role", role), ("content", content)]),
                ("finish_reason", fr)])

/-- The content field of a normalized choice. -/
def choiceContent (v : JsonValue) : JsonValue :=
  getField (getField v "message") "content"

/-- The model fallback of sanitizeResponse:
`process.env.DEFAULT_CHAT_MODEL ?? "venice-uncensored"` (nullish
coalescing: a set-but-empty variable is kept, unlike in
sanitizeChatBody). -/
def envModelNullish : Option String → JsonValue
  | some s => .str s
  | none => .str "venice-uncensored"

/-- The usage block built by sanitizeResponse when `data?.usage` is
truthy: token counts with a numeric default of zero per missing
sub-field. -/
def usageOf (data : JsonValue) : JsonValue :=
  let u := getField data "usage"
  .obj [("prompt_tokens", jsNullish (getField u "prompt_tokens") (.num 0)),
        ("completion_tokens", jsNullish (getField u "completion_tokens") (.num 0)),
        ("total_tokens", jsNullish (getField u "total_tokens") (.num 0))]

/-- gateway.ts sanitizeResponse, parametrized by the environment and by
now, the value of Date.now() in milliseconds.  The usage key is emitted
only when `data?.usage` is truthy; when absent the field holds the JS
value undefined, which res.json never serializes, so the key is omitted
from the object.  The result is none when a nullish element of the
choices array makes sanitizeChoice throw (the route handler catches the
TypeError). -/
def sanitizeResponse (env : Option String) (now : Nat) (data : JsonValue) :
    Option JsonValue :=
  match (asArrayList (optGet data "choices")).mapM sanitizeChoice with
  | none => none
  | some choices =>
    let base := [("id", jsNullish (optGet data "id")
                          (.str ("chatcmpl-" ++ toString now))),
                 ("object", jsNullish (optGet data "object") (.str "chat.completion")),
                 ("created", jsNullish (optGet data "created") (.num (now / 1000))),
                 ("model", jsNullish (optGet data "model") (envModelNullish env)),
                 ("choices", JsonValue.arr choices)]
    some (.obj (if truthy (optGet data "usage")
                then base ++ [("usage", usageOf data)] else base))

/-- The best-effort message extraction of mapUpstreamErrorToChatMessage:
`err?.issues?.[0]?.message || err?.details?._errors?.[0] || err?.message
|| "Unknown error from upstream"`. -/
def extractErrMsg (err : JsonValue) : JsonValue :=
  jsOr (optGet (optIdx0 (optGet err "issues")) "message")
    (jsOr (optIdx0 (optGet (optGet err "details") "_errors"))
      (jsOr (optGet err "message") (.str "Unknown error from upstream")))

/-- gateway.ts mapUpstreamErrorToChatMessage: wraps any failure in the
fixed error schema with an embedded choices entry whose content is
"Error: " followed by the extracted message rendered by a template
literal. -/
def mapUpstreamErrorToChatMessage (err : JsonValue) : JsonValue :=
  .obj [("error", .str "Upstream error"),
        ("details", err),
        ("choices", .arr [
          .obj [("index", .num 0),
                ("message", .obj [("role", .str "assistant"),
                                  ("content", .str ("Error: " ++ jsTemplateStr (extractErrMsg err)))]),
                ("finish_reason", .str "stop")]])]

/-- One upstream HTTP response on the non-streaming path, after
safeReadText: the status, the body text (empty when reading threw), and
the outcome of JSON.parse on that text (none when parsing threw, i.e.
the text is not valid JSON). -/
structure UpstreamResponse where
  status : Nat
  bodyText : String
  bodyJson : Option JsonValue

/-- fetch Response.ok: status in the 200..299 range. -/
def respOk (status : Nat) : Bool :=
  200 ≤ status && status < 300

/-- The outcome of the outbound fetch: a response, or a thrown transport
error carrying the error value. -/
inductive FetchOutcome where
  | responded (r : UpstreamResponse)
  | transportError (e : JsonValue)

/-- The observable result of one request to POST /chat/completions:
the response status, the response body (none only on the 502 path whose
body wraps a platform TypeError, whose message string is
platform-defined and not modelled), and the JSON body posted upstream
(none when no outbound call was made). -/
structure GatewayResult where
  status : Nat
  body : Option JsonValue
  sent : Option JsonValue

/-- The gateway.ts POST /chat/completions handler: the caller-identity
check, the JSON-RPC rejection, the chat-shape validation, body
sanitization, the upstream call, and response mapping, parametrized by
the environment default model, Date.now(), the x-client header value
(none when absent), the decoded body, and the upstream outcome. -/
def handleChatCompletions (env : Option String) (now : Nat)
    (clientHeader : Option String) (body : JsonValue)
    (fetchOut : FetchOutcome) : GatewayResult :=
  if clientHeader ≠ some "elevenlabs" then
    { status := 403,
      body := some (.obj [("error", .str "Access denied. Unauthorized client.")]),
      sent := none }
  else if isJsonRpc body then
    { status := 400,
      body := some (.obj [("error", .str "JSON-RPC (MCP) request cannot be sent to chat endpoint. Route it to an MCP handler.")]),
      sent := none }
  else if !isChatPayload body then
    { status := 400,
      body := some (.obj [("error", .str "Invalid chat request. 'messages' array is required.")]),
      sent := none }
  else
    let sentJson := (sanitizeChatBody env body).toJson
    match fetchOut with
    | .transportError e =>
        { status := 502, body := some (mapUpstreamErrorToChatMessage e),
          sent := some sentJson }
    | .responded r =>
        let rawText := r.bodyText
        let rawData := r.bodyJson.getD (.obj [("text", .str rawText)])
        if !(respOk r.status) then
          { status := r.status,
            body := some (mapUpstreamErrorToChatMessage
                     (.obj [("message", .str rawText), ("status", .num r.status)])),
            sent := some sentJson }
        else
          match sanitizeResponse env now rawData with
          | some clean => { status := 200, body := some clean, sent := some sentJson }
          | none => { status := 502, body := none, sent := some sentJson }

/-- The terminal SSE frame. -/
def sseEndFrame : String := "event: end\ndata: [DONE]\n\n"

/-- An SSE error frame carrying a stringified JSON payload. -/
def sseErrorFrame (v : JsonValue) : String :=
  "event: error\ndata: " ++ jsonStringify v ++ "\n\n"

/-- part_000 streamFromVenice abort test:
`e?.name === "AbortError" || e?.type === "aborted"`. -/
def isAbortError (e : JsonValue) : Bool :=
  strictEqStr (optGet e "name") "AbortError" || strictEqStr (optGet e "type") "aborted"

/-- How the upstream stream-mode fetch resolves: a thrown error (the
abort case is decided by isAbortError), or an open response with its
status, body text (read when the status is non-success), body presence,
and the relayed frames when the body streams to a clean end. -/
inductive StreamOutcome where
  | fetchFailed (e : JsonValue)
  | opened (status : Nat) (bodyText : String) (bodyPresent : Bool)
           (frames : List String)

/-- What the caller observes from the streaming relay: the committed
response status, the ordered event-stream writes, and whether the relay
ended the response. -/
structure SseOutput where
  committedStatus : Nat
  writes : List String
  ended : Bool

/-- part_000 streamFromVenice as a pure function of the upstream
outcome.  The 200 status and headers are committed and flushed before
the upstream call; the ": connected" prelude is written first.  The
periodic ": ping" heartbeat frames fire on a wall-clock timer and are
not modelled, and a mid-relay stream error is an event interleaving
outside this pure model: the modelled paths are the failures to open
and the clean relay. -/
def streamFromVenice (outcome : StreamOutcome) : SseOutput :=
  match outcome with
  | .fetchFailed e =>
      if isAbortError e then
        { committedStatus := 200, writes := [": connected\n\n"], ended := false }
      else
        { committedStatus := 200,
          writes := [": connected\n\n",
                     sseErrorFrame (.obj [("message",
                       jsOr (optGet e "message") (.str "upstream fetch error"))])],
          ended := false }
  | .opened status bodyText bodyPresent frames =>
      if !(respOk status) then
        { committedStatus := 200,
          writes := [": connected\n\n",
                     sseErrorFrame (.obj [("status", .num status),
                                          ("message", .str bodyText)]),
                     sseEndFrame],
          ended := true }
      else if !bodyPresent then
        { committedStatus := 200,
          writes := [": connected\n\n",
                     "event: error\ndata: \x7b\"message\":\"no upstream body\"\x7d\n\n"],
          ended := true }
      else
        { committedStatus := 200,
          writes := [": connected\n\n"] ++ frames ++ [sseEndFrame],
          ended := true }

theorem truthy_defaultModel (env : Option String) :
    truthy (.str (defaultModel env)) = true := by
  cases env with
  | none => rfl
  | some s =>
    by_cases h : s = ""
    · simp [defaultModel, h, truthy]
    · simp [defaultModel, h, truthy]

theorem sanitize_stream_false (env : Option String) (b : JsonValue) :
    (sanitizeChatBody env b).stream = false := by
  unfold sanitizeChatBody
  by_cases h : (truthy b && typeofIsObject b) = true <;> simp [h]

theorem truthy_sanitize_model (env : Option String) (b : JsonValue) :
    truthy (sanitizeChatBody env b).model = true := by
  unfold sanitizeChatBody
  by_cases h : (truthy b && typeofIsObject b) = true
  · by_cases h2 : truthy (getField b "model") = true
    · simp [h, jsOr, h2]
    · simp [h, jsOr, h2, truthy_defaultModel]
  · simp [h, truthy_defaultModel]

/-- C7: a request whose x-client header is not exactly "elevenlabs"
(including an absent header) is rejected with status 403 and the
authorization-failure body, no outbound call is made, and the result is
a constant in the request body, so the body never affects the
outcome. -/
theorem c7_auth_reject (env : Option String) (now : Nat) (hdr : Option String)
    (b : JsonValue) (f : FetchOutcome) (h : hdr ≠ some "elevenlabs") :
    handleChatCompletions env now hdr b f =
      { status := 403,
        body := some (.obj [("error", .str "Access denied. Unauthorized client.")]),
        sent := none } := by
  unfold handleChatCompletions
  simp [h]

/-- C7 witness: an absent header with an otherwise valid chat body is
rejected with 403 and no outbound call. -/
theorem c7_auth_reject_witness :
    handleChatCompletions none 0 none (.obj [("messages", .arr [])])
        (.transportError .null) =
      { status := 403,
        body := some (.obj [("error", .str "Access denied. Unauthorized client.")]),
        sent := none } :=
  c7_auth_reject none 0 none _ _ (by simp)

/-- C3: a body of the JSON-RPC shape (jsonrpc === "2.0" and a method
key) classifies as RpcRequest — the RPC check precedes the chat check —
and the chat route answers it with a client-error status without any
outbound upstream call, for every header and upstream behavior. -/
theorem c3_rpc_precedence (env : Option String) (now : Nat) (hdr : Option String)
    (b : JsonValue) (f : FetchOutcome) (h : isJsonRpc b = true) :
    classify b = .rpc ∧
    (handleChatCompletions env now hdr b f).sent = none ∧
    400 ≤ (handleChatCompletions env now hdr b f).status ∧
    (handleChatCompletions env now hdr b f).status < 500 := by
  refine ⟨by simp [classify, h], ?_⟩
  unfold handleChatCompletions
  by_cases hh : hdr = some "elevenlabs"
  · simp [hh, h]
  · simp [hh]

/-- C3 witness: a body carrying both the RPC shape and a messages array
is classified RPC and rejected without an upstream call. -/
theorem c3_rpc_precedence_witness :
    classify (.obj [("jsonrpc", .str "2.0"), ("method", .str "ping"),
        ("messages", .arr [])]) = .rpc ∧
    (handleChatCompletions none 0 (some "elevenlabs")
        (.obj [("jsonrpc", .str "2.0"), ("method", .str "ping"), ("messages", .arr [])])
        (.transportError .null)).sent = none ∧
    400 ≤ (handleChatCompletions none 0 (some "elevenlabs")
        (.obj [("jsonrpc", .str "2.0"), ("method", .str "ping"), ("messages", .arr [])])
        (.transportError .null)).status ∧
    (handleChatCompletions none 0 (some "elevenlabs")
        (.obj [("jsonrpc", .str "2.0"), ("method", .str "ping"), ("messages", .arr [])])
        (.transportError .null)).status < 500 :=
  c3_rpc_precedence none 0 (some "elevenlabs") _ _ rfl

theorem lookupField_map_replace (fs : List (String × JsonValue)) (k : String)
    (v : JsonValue) (k2 : String) (h : (k2 == k) = false) :
    lookupField (fs.map (fun p => if p.1 == k then (k, v) else p)) k2 =
      lookupField fs k2 := by
  have hne : k2 ≠ k := beq_eq_false_iff_ne.mp h
  have hkk2 : (k == k2) = false := beq_eq_false_iff_ne.mpr (Ne.symm hne)
  induction fs with
  | nil => rfl
  | cons p fs ih =>
    simp only [List.map_cons]
    by_cases hp : (p.1 == k) = true
    · have hk : p.1 = k := by simpa using hp
      have h2 : (p.1 == k2) = false := by rw [hk]; exact hkk2
      rw [if_pos hp]
      simp only [lookupField, hkk2, h2, Bool.false_eq_true, if_false]
      exact ih
    · rw [if_neg hp]
      simp only [lookupField]
      by_cases hq : (p.1 == k2) = true
      · rw [if_pos hq, if_pos hq]
      · rw [if_neg hq, if_neg hq]
        exact ih

theorem lookupField_append_single_ne (fs : List (String × JsonValue)) (k : String)
    (v : JsonValue) (k2 : String) (h : (k2 == k) = false) :
    lookupField (fs ++ [(k, v)]) k2 = lookupField fs k2 := by
  have hne : k2 ≠ k := beq_eq_false_iff_ne.mp h
  have hkk2 : (k == k2) = false := beq_eq_false_iff_ne.mpr (Ne.symm hne)
  induction fs with
  | nil =>
    simp only [List.nil_append, lookupField, hkk2, Bool.false_eq_true, if_false]
  | cons p fs ih =>
    simp only [List.cons_append, lookupField]
    by_cases hq : (p.1 == k2) = true
    · rw [if_pos hq, if_pos hq]
    · rw [if_neg hq, if_neg hq]
      exact ih

/-- JS property assignment never disturbs the other keys. -/
theorem getField_setField_ne (fs : List (String × JsonValue)) (k : String)
    (v : JsonValue) (k2 : String) (h : (k2 == k) = false) :
    getField (.obj (setField fs k v)) k2 = getField (.obj fs) k2 := by
  unfold setField
  by_cases ha : fs.any (fun p => p.1 == k) = true
  · simp only [ha, if_true]
    show lookupField (fs.map (fun p => if p.1 == k then (k, v) else p)) k2 =
      lookupField fs k2
    exact lookupField_map_replace fs k v k2 h
  · simp only [ha, if_false, Bool.false_eq_true]
    show lookupField (fs ++ [(k, v)]) k2 = lookupField fs k2
    exact lookupField_append_single_ne fs k v k2 h

theorem lookupField_map_replace_eq (fs : List (String × JsonValue)) (k : String)
    (v : JsonValue) (ha : fs.any (fun p => p.1 == k) = true) :
    lookupField (fs.map (fun p => if p.1 == k then (k, v) else p)) k = v := by
  induction fs with
  | nil => simp at ha
  | cons p fs ih =>
    simp only [List.map_cons]
    by_cases hp : (p.1 == k) = true
    · rw [if_pos hp]
      simp [lookupField]
    · rw [if_neg hp]
      simp only [lookupField, hp, Bool.false_eq_true, if_false]
      have ha2 : fs.any (fun p => p.1 == k) = true := by
        simp only [List.any_cons, hp, Bool.false_or] at ha
        exact ha
      exact ih ha2

theorem lookupField_append_single_eq (fs : List (String × JsonValue)) (k : String)
    (v : JsonValue) (hn : fs.any (fun p => p.1 == k) = false) :
    lookupField (fs ++ [(k, v)]) k = v := by
  induction fs with
  | nil => simp [lookupField]
  | cons p fs ih =>
    simp only [List.any_cons, Bool.or_eq_false_iff] at hn
    simp only [List.cons_append, lookupField, hn.1, Bool.false_eq_true, if_false]
    exact ih hn.2

/-- JS property assignment makes the assigned key read back the assigned
value. -/
theorem getField_setField_eq (fs : List (String × JsonValue)) (k : String)
    (v : JsonValue) :
    getField (.obj (setField fs k v)) k = v := by
  unfold setField
  by_cases ha : fs.any (fun p => p.1 == k) = true
  · simp only [ha, if_true]
    show lookupField (fs.map (fun p => if p.1 == k then (k, v) else p)) k = v
    exact lookupField_map_replace_eq fs k v ha
  · simp only [ha, if_false, Bool.false_eq_true]
    show lookupField (fs ++ [(k, v)]) k = v
    exact lookupField_append_single_eq fs k v (Bool.eq_false_iff.mpr ha)


/-- C1 counterexample: for the body with messages [] and stream the
boolean true, the stream field forwarded upstream by sanitizeChatBody is
false although the callers original value was exactly the boolean true,
so the claimed equivalence fails. -/
theorem c1_stream_counterexample :
    ¬ (((sanitizeChatBody none
          (.obj [("messages", .arr []), ("stream", .bool true)])).stream = true) ↔
       (getField (.obj [("messages", .arr []), ("stream", .bool true)]) "stream" =
          .bool true)) := by
  intro h
  have h2 : (sanitizeChatBody none
      (.obj [("messages", .arr []), ("stream", .bool true)])).stream = true :=
    h.mpr rfl
  have h3 : False = True := by
    have h4 : (sanitizeChatBody none
        (.obj [("messages", .arr []), ("stream", .bool true)])).stream = false := rfl
    rw [h4] at h2
    exact absurd h2 (by simp)
  exact h3.symm ▸ trivial

theorem getField_injectModel_stream (env : Option String)
    (fs : List (String × JsonValue)) :
    getField (.obj (injectModelField env fs)) "stream" =
      getField (.obj fs) "stream" := by
  unfold injectModelField
  by_cases h : truthy (getField (.obj fs) "model") = true
  · simp [h]
  · simp only [h, Bool.false_eq_true, if_false]
    exact getField_setField_ne fs "model" (.str (defaultModel env)) "stream" (by decide)

theorem getField_injectStream_defined (fs : List (String × JsonValue))
    (hdef : isUndef (getField (.obj fs) "stream") = false) :
    getField (.obj (injectStreamField fs)) "stream" = getField (.obj fs) "stream" := by
  unfold injectStreamField
  simp [hdef]

theorem getField_injectStream_undef (fs : List (String × JsonValue))
    (h : isUndef (getField (.obj fs) "stream") = true) :
    getField (.obj (injectStreamField fs)) "stream" = .bool false := by
  unfold injectStreamField
  simp only [h, if_true]
  exact getField_setField_eq fs "stream" (.bool false)

/-- C1 amended: the stream flag forwarded upstream by gateway.ts
sanitizeChatBody is always the boolean false — a caller-requested
stream true is silently forced to false.  The part_000 variant
maybeInjectDefaultModel instead forwards the original stream value
verbatim whenever it is defined (so a non-boolean truthy value such as
the string "true" is not normalized), and defaults only an undefined
stream to false. -/
theorem c1_stream_amended (env : Option String) (b : JsonValue)
    (hchat : isChatPayload b = true) :
    (sanitizeChatBody env b).stream = false ∧
    (isUndef (getField b "stream") = false →
      getField (maybeInjectDefaultModel env b) "stream" = getField b "stream") ∧
    (isUndef (getField b "stream") = true →
      getField (maybeInjectDefaultModel env b) "stream" = .bool false) := by
  refine ⟨sanitize_stream_false env b, ?_, ?_⟩
  · intro hdef
    cases b with
    | obj fs =>
      have harr : isArr (optGet (.obj fs) "messages") = true := by
        have : isChatPayload (.obj fs) = true := hchat
        simpa [isChatPayload, truthy, typeofIsObject, optGet] using this
      unfold maybeInjectDefaultModel
      rw [harr]
      simp only [Bool.not_true, Bool.false_eq_true, if_false]
      have hdef2 : isUndef (getField (.obj (injectModelField env fs)) "stream") = false := by
        rw [getField_injectModel_stream env fs]
        exact hdef
      rw [getField_injectStream_defined (injectModelField env fs) hdef2,
          getField_injectModel_stream env fs]
    | null => simp [isChatPayload, truthy] at hchat
    | undefined => simp [isChatPayload, truthy] at hchat
    | bool x => simp [isChatPayload, typeofIsObject] at hchat
    | num n => simp [isChatPayload, typeofIsObject] at hchat
    | str s => simp [isChatPayload, typeofIsObject] at hchat
    | arr xs => simp [isChatPayload, getField, isArr] at hchat
  · intro hundef
    cases b with
    | obj fs =>
      have harr : isArr (optGet (.obj fs) "messages") = true := by
        have : isChatPayload (.obj fs) = true := hchat
        simpa [isChatPayload, truthy, typeofIsObject, optGet] using this
      unfold maybeInjectDefaultModel
      rw [harr]
      simp only [Bool.not_true, Bool.false_eq_true, if_false]
      have hundef2 : isUndef (getField (.obj (injectModelField env fs)) "stream") = true := by
        rw [getField_injectModel_stream env fs]
        exact hundef
      exact getField_injectStream_undef (injectModelField env fs) hundef2
    | null => simp [isChatPayload, truthy] at hchat
    | undefined => simp [isChatPayload, truthy] at hchat
    | bool x => simp [isChatPayload, typeofIsObject] at hchat
    | num n => simp [isChatPayload, typeofIsObject] at hchat
    | str s => simp [isChatPayload, typeofIsObject] at hchat
    | arr xs => simp [isChatPayload, getField, isArr] at hchat

/-- C1 amended witness: for the chat body with messages [] and the
string "true" as stream, sanitizeChatBody forwards stream false while
maybeInjectDefaultModel forwards the string "true" verbatim. -/
theorem c1_stream_amended_witness :
    (sanitizeChatBody none
        (.obj [("messages", .arr []), ("stream", .str "true")])).stream = false ∧
    (isUndef (getField (.obj [("messages", .arr []), ("stream", .str "true")])
        "stream") = false →
      getField (maybeInjectDefaultModel none
          (.obj [("messages", .arr []), ("stream", .str "true")])) "stream" =
        getField (.obj [("messages", .arr []), ("stream", .str "true")]) "stream") ∧
    (isUndef (getField (.obj [("messages", .arr []), ("stream", .str "true")])
        "stream") = true →
      getField (maybeInjectDefaultModel none
          (.obj [("messages", .arr []), ("stream", .str "true")])) "stream" =
        .bool false) :=
  c1_stream_amended none (.obj [("messages", .arr []), ("stream", .str "true")]) rfl

/-- C9 counterexample: the payload with non-empty model "m", a messages
array and the boolean stream true — already normalized under the claims
reading of "boolean stream" — is changed by normalization: the
normalizer forces stream to false, so the result is not identical to the
input. -/
theorem c9_idempotent_counterexample :
    (sanitizeChatBody none
        (.obj [("model", .str "m"), ("messages", .arr []),
               ("stream", .bool true)])).toJson ≠
      .obj [("model", .str "m"), ("messages", .arr []), ("stream", .bool true)] := by
  intro h
  have h2 : getField ((sanitizeChatBody none
      (.obj [("model", .str "m"), ("messages", .arr []),
             ("stream", .bool true)])).toJson) "stream" =
      getField (.obj [("model", .str "m"), ("messages", .arr []),
             ("stream", .bool true)]) "stream" := congrArg (fun v => getField v "stream") h
  have h3 : JsonValue.bool false = JsonValue.bool true := h2
  simp at h3

/-- C9 amended: the normalizer is idempotent — re-normalizing the
serialized result of normalization yields the same normalized value for
every input — and a payload with a non-empty model string, a messages
array and stream equal to the boolean false (the only stream value the
normalizer ever emits) is a fixed point.  A payload with the boolean
stream true is not fixed: its stream is forced to false. -/
theorem c9_idempotent_amended (env : Option String) (b : JsonValue)
    (s : String) (msgs : List JsonValue) (hs : s ≠ "") :
    sanitizeChatBody env ((sanitizeChatBody env b).toJson) = sanitizeChatBody env b ∧
    (sanitizeChatBody env
        (.obj [("model", .str s), ("messages", .arr msgs),
               ("stream", .bool false)])).toJson =
      .obj [("model", .str s), ("messages", .arr msgs), ("stream", .bool false)] := by
  constructor
  · have hm := truthy_sanitize_model env b
    have hst := sanitize_stream_false env b
    have h1 : sanitizeChatBody env ((sanitizeChatBody env b).toJson) =
        { model := jsOr (sanitizeChatBody env b).model (.str (defaultModel env)),
          messages := (sanitizeChatBody env b).messages,
          stream := false } := rfl
    rw [h1]
    unfold jsOr
    rw [hm]
    simp only [if_true]
    cases hc : sanitizeChatBody env b with
    | mk m ms st =>
      rw [hc] at hst
      simp only at hst
      rw [hst]
  · have hs2 : truthy (.str s) = true := by
      simp [truthy]
      exact hs
    have h1 : sanitizeChatBody env
        (.obj [("model", .str s), ("messages", .arr msgs), ("stream", .bool false)]) =
        { model := jsOr (.str s) (.str (defaultModel env)),
          messages := msgs, stream := false } := rfl
    rw [h1]
    unfold jsOr
    rw [hs2]
    simp only [if_true]
    rfl

/-- C9 amended witness: idempotence and the fixed point at the concrete
normalized payload with model "venice-uncensored" and empty messages. -/
theorem c9_idempotent_amended_witness :
    sanitizeChatBody none ((sanitizeChatBody none (.obj [])).toJson) =
      sanitizeChatBody none (.obj []) ∧
    (sanitizeChatBody none
        (.obj [("model", .str "venice-uncensored"), ("messages", .arr []),
               ("stream", .bool false)])).toJson =
      .obj [("model", .str "venice-uncensored"), ("messages", .arr []),
            ("stream", .bool false)] :=
  c9_idempotent_amended none (.obj []) "venice-uncensored" [] (by decide)

/-- C10: on the chat path the body posted upstream is exactly the
serialization of sanitizeChatBody, whose keys are exactly model,
messages and stream in that order — every other caller field, such as
temperature, is absent from the outbound request. -/
theorem c10_projection (env : Option String) (now : Nat) (b : JsonValue)
    (f : FetchOutcome) (h1 : isJsonRpc b = false) (h2 : isChatPayload b = true) :
    (handleChatCompletions env now (some "elevenlabs") b f).sent =
      some ((sanitizeChatBody env b).toJson) ∧
    objKeys ((sanitizeChatBody env b).toJson) = ["model", "messages", "stream"] ∧
    getField ((sanitizeChatBody env b).toJson) "temperature" = .undefined := by
  refine ⟨?_, rfl, rfl⟩
  cases f with
  | transportError e => simp [handleChatCompletions, h1, h2]
  | responded r =>
    by_cases hr : respOk r.status = true
    · cases hs : sanitizeResponse env now (r.bodyJson.getD (.obj [("text", .str r.bodyText)])) with
      | some clean => simp [handleChatCompletions, h1, h2, hr, hs]
      | none => simp [handleChatCompletions, h1, h2, hr, hs]
    · simp [handleChatCompletions, h1, h2, hr]

/-- C10 witness: a caller body carrying temperature and max_tokens is
forwarded with only the three normalized fields. -/
theorem c10_projection_witness :
    (handleChatCompletions none 0 (some "elevenlabs")
        (.obj [("messages", .arr []), ("temperature", .num 1),
               ("max_tokens", .num 5)])
        (.transportError .null)).sent =
      some ((sanitizeChatBody none
        (.obj [("messages", .arr []), ("temperature", .num 1),
               ("max_tokens", .num 5)])).toJson) ∧
    objKeys ((sanitizeChatBody none
        (.obj [("messages", .arr []), ("temperature", .num 1),
               ("max_tokens", .num 5)])).toJson) = ["model", "messages", "stream"] ∧
    getField ((sanitizeChatBody none
        (.obj [("messages", .arr []), ("temperature", .num 1),
               ("max_tokens", .num 5)])).toJson) "temperature" = .undefined :=
  c10_projection none 0 _ _ rfl rfl

/-- C4 counterexample: for an upstream choice whose message content is
the number 0 (a falsy non-string), the normalized content is the empty
string, not the textual JSON form "0" that the claim requires for every
non-string value. -/
theorem c4_content_counterexample :
    (sanitizeChoice (.obj [("message", .obj [("content", .num 0)])])).map
        choiceContent ≠
      some (.str (jsonStringify (.num 0))) := by
  intro h
  have h2 : some (JsonValue.str "") = some (JsonValue.str "0") := h
  simp at h2

/-- C4 amended: for every non-nullish upstream choice the normalized
content is always a string — passed through verbatim when the upstream
content is a string, serialized to its textual JSON form when it is a
truthy non-string, but collapsed to the empty string when it is a falsy
non-string (0, false, null, or absent). -/
theorem c4_content_amended (choice : JsonValue) (h1 : choice ≠ .null)
    (h2 : choice ≠ .undefined) :
    (sanitizeChoice choice).map choiceContent =
      some (match upstreamContent choice with
            | .str s => JsonValue.str s
            | v => if truthy v then .str (jsonStringify v) else .str "") := by
  cases choice with
  | null => exact absurd rfl h1
  | undefined => exact absurd rfl h2
  | bool x => rfl
  | num n => rfl
  | str s => rfl
  | arr xs => rfl
  | obj fs => rfl

/-- C4 amended witness: a truthy non-string content (the number 7 inside
a delta) is serialized to its JSON text. -/
theorem c4_content_amended_witness :
    (sanitizeChoice (.obj [("delta", .obj [("content", .num 7)])])).map
        choiceContent =
      some (match upstreamContent (.obj [("delta", .obj [("content", .num 7)])]) with
            | .str s => JsonValue.str s
            | v => if truthy v then .str (jsonStringify v) else .str "") :=
  c4_content_amended (.obj [("delta", .obj [("content", .num 7)])])
    (by simp) (by simp)

/-- C5 counterexample: an upstream document carrying object
"upstream-tag" has that value passed through to the caller instead of
the literal completion-document tag "chat.completion". -/
theorem c5_object_counterexample :
    (sanitizeResponse none 0 (.obj [("object", .str "upstream-tag")])).map
        (fun r => getField r "object") ≠
      some (.str "chat.completion") := by
  intro h
  have h2 : some (JsonValue.str "upstream-tag") = some (JsonValue.str "chat.completion") := h
  simp at h2

/-- C5 amended: the object field of the normalized response is the
upstream object value whenever that value is neither null nor undefined
— upstream tagging is passed through — and the literal tag
"chat.completion" is used only as a nullish fallback. -/
theorem c5_object_amended (env : Option String) (now : Nat) (data : JsonValue)
    (r : JsonValue) (h : sanitizeResponse env now data = some r) :
    getField r "object" = jsNullish (optGet data "object") (.str "chat.completion") := by
  unfold sanitizeResponse at h
  cases hm : (asArrayList (optGet data "choices")).mapM sanitizeChoice with
  | none => rw [hm] at h; cases h
  | some cs =>
    rw [hm] at h
    simp only [Option.some.injEq] at h
    subst h
    by_cases hu : truthy (optGet data "usage") = true
    · simp only [hu, if_true]
      rfl
    · simp only [hu, Bool.false_eq_true, if_false]
      rfl

/-- C5 amended witness: the empty upstream document has no object value,
so the fallback tag is used. -/
theorem c5_object_amended_witness :
    getField (.obj [("id", .str "chatcmpl-0"), ("object", .str "chat.completion"),
        ("created", .num 0), ("model", .str "venice-uncensored"),
        ("choices", .arr [])]) "object" =
      jsNullish (optGet (.obj []) "object") (.str "chat.completion") :=
  c5_object_amended none 0 (.obj []) _ rfl

/-- C2 counterexample: with the upstream responding 429 and body text
consisting of the JSON text of an object with message "rate limited",
the caller receives choices[0].message.content equal to the string
"Error: " followed by the whole raw body text, not
"Error: rate limited". -/
theorem c2_status_counterexample :
    (handleChatCompletions none 0 (some "elevenlabs") (.obj [("messages", .arr [])])
        (.responded { status := 429,
                      bodyText := "\x7b\"message\":\"rate limited\"\x7d",
                      bodyJson := some (.obj [("message", .str "rate limited")]) })).body.map
        (fun m => choiceContent (optIdx0 (getField m "choices"))) ≠
      some (.str "Error: rate limited") := by
  intro h
  have h2 : some (JsonValue.str "Error: \x7b\"message\":\"rate limited\"\x7d") =
      some (JsonValue.str "Error: rate limited") := h
  simp only [Option.some.injEq] at h2
  have h3 : "Error: \x7b\"message\":\"rate limited\"\x7d" = "Error: rate limited" := by
    injection h2
  exact absurd h3 (by decide)

/-- C2 amended: for every non-success upstream status N with body text
T on the non-streaming path the caller receives status N itself and a
body whose choices[0] is index 0 / role assistant / finish_reason stop,
with content "Error: " followed by the whole raw body text T (the
best-effort extraction reads the message field of the wrapper
constructed from the raw text, not a message parsed out of T), falling
back to "Unknown error from upstream" when T is empty. -/
theorem c2_status_amended (env : Option String) (now : Nat) (b : JsonValue)
    (r : UpstreamResponse) (h1 : isJsonRpc b = false) (h2 : isChatPayload b = true)
    (h3 : respOk r.status = false) :
    handleChatCompletions env now (some "elevenlabs") b (.responded r) =
      { status := r.status,
        body := some (.obj [("error", .str "Upstream error"),
          ("details", .obj [("message", .str r.bodyText), ("status", .num r.status)]),
          ("choices", .arr [
            .obj [("index", .num 0),
                  ("message", .obj [("role", .str "assistant"),
                    ("content", .str ("Error: " ++
                      (if r.bodyText = "" then "Unknown error from upstream"
                       else r.bodyText)))]),
                  ("finish_reason", .str "stop")]])]),
        sent := some ((sanitizeChatBody env b).toJson) } := by
  by_cases hT : r.bodyText = ""
  · simp [handleChatCompletions, h1, h2, h3, mapUpstreamErrorToChatMessage,
          extractErrMsg, optGet, getField, lookupField, optIdx0, jsOr, truthy,
          jsTemplateStr, hT]
  · have hT2 : (r.bodyText != "") = true := by simpa using hT
    simp [handleChatCompletions, h1, h2, h3, mapUpstreamErrorToChatMessage,
          extractErrMsg, optGet, getField, lookupField, optIdx0, jsOr, truthy,
          jsTemplateStr, hT, hT2]

/-- C2 amended witness: a 429 with non-empty body text "boom" surfaces
as a 429 whose embedded choice carries "Error: boom". -/
theorem c2_status_amended_witness :
    handleChatCompletions none 0 (some "elevenlabs") (.obj [("messages", .arr [])])
        (.responded { status := 429, bodyText := "boom", bodyJson := none }) =
      { status := 429,
        body := some (.obj [("error", .str "Upstream error"),
          ("details", .obj [("message", .str "boom"), ("status", .num 429)]),
          ("choices", .arr [
            .obj [("index", .num 0),
                  ("message", .obj [("role", .str "assistant"),
                    ("content", .str ("Error: " ++
                      (if ("boom" : String) = "" then "Unknown error from upstream"
                       else "boom")))]),
                  ("finish_reason", .str "stop")]])]),
        sent := some ((sanitizeChatBody none (.obj [("messages", .arr [])])).toJson) } :=
  c2_status_amended none 0 (.obj [("messages", .arr [])])
    { status := 429, bodyText := "boom", bodyJson := none } rfl rfl rfl

/-- C6 counterexample: with a success status and a body text that is not
valid JSON, the caller-visible result does not mention the raw body text
anywhere — the raw-text wrapper is built but dropped by response
normalization, so the text is silently lost on the success path. -/
theorem c6_rawtext_counterexample :
    (handleChatCompletions none 0 (some "elevenlabs") (.obj [("messages", .arr [])])
        (.responded { status := 200, bodyText := "oops-not-json",
                      bodyJson := none })).body.map
        (mentionsStr "oops-not-json") = some false := by
  rfl

/-- C6 amended: a non-JSON upstream body text is preserved on the
non-success path (it is the details.message of the error body), but on
the success path the raw-text wrapper is discarded by response
normalization: the caller-visible body is the same whatever the raw
text was. -/
theorem c6_rawtext_amended (env : Option String) (now : Nat) (b : JsonValue)
    (h1 : isJsonRpc b = false) (h2 : isChatPayload b = true) :
    (∀ r : UpstreamResponse, respOk r.status = false →
      (handleChatCompletions env now (some "elevenlabs") b (.responded r)).body.map
          (fun m => optGet (optGet m "details") "message") =
        some (.str r.bodyText)) ∧
    (∀ st : Nat, ∀ t t2 : String, respOk st = true →
      (handleChatCompletions env now (some "elevenlabs") b
          (.responded { status := st, bodyText := t, bodyJson := none })).body =
      (handleChatCompletions env now (some "elevenlabs") b
          (.responded { status := st, bodyText := t2, bodyJson := none })).body) := by
  constructor
  · intro r hr
    simp [handleChatCompletions, h1, h2, hr, mapUpstreamErrorToChatMessage,
          optGet, getField, lookupField]
  · intro st t t2 hst
    simp [handleChatCompletions, h1, h2, hst, sanitizeResponse, asArrayList,
          optGet, getField, lookupField, truthy]

/-- C6 amended witness: preservation of the text "oops" on a 500, and
independence of the success-path body from the unparseable text. -/
theorem c6_rawtext_amended_witness :
    ((handleChatCompletions none 0 (some "elevenlabs") (.obj [("messages", .arr [])])
        (.responded { status := 500, bodyText := "oops", bodyJson := none })).body.map
        (fun m => optGet (optGet m "details") "message") =
      some (.str "oops")) ∧
    ((handleChatCompletions none 0 (some "elevenlabs") (.obj [("messages", .arr [])])
        (.responded { status := 200, bodyText := "junk-a", bodyJson := none })).body =
     (handleChatCompletions none 0 (some "elevenlabs") (.obj [("messages", .arr [])])
        (.responded { status := 200, bodyText := "junk-b", bodyJson := none })).body) :=
  ⟨(c6_rawtext_amended none 0 (.obj [("messages", .arr [])]) rfl rfl).1
      { status := 500, bodyText := "oops", bodyJson := none } rfl,
   (c6_rawtext_amended none 0 (.obj [("messages", .arr [])]) rfl rfl).2
      200 "junk-a" "junk-b" rfl⟩

/-- C8 counterexample: when the upstream stream-mode fetch throws a
non-abort transport error, the relay writes the error frame but never
the terminal frame, and does not end the response — the claimed
error-frame-then-terminal-frame sequence fails on the transport-error
kind. -/
theorem c8_stream_counterexample :
    ((streamFromVenice (.fetchFailed
        (.obj [("message", .str "connect ECONNREFUSED")]))).writes.contains
      sseEndFrame = false) ∧
    (streamFromVenice (.fetchFailed
        (.obj [("message", .str "connect ECONNREFUSED")]))).ended = false := by
  constructor <;> rfl

/-- C8 amended: with the 200 status already committed at opening, an
upstream open failure is reported in-band, but the two failure kinds
differ: a non-success upstream status produces exactly one error frame
followed by the terminal frame and ends the response, while a non-abort
transport error produces only the error frame — no terminal frame — and
leaves the response open. -/
theorem c8_stream_amended (st : Nat) (bt : String) (bp : Bool)
    (fr : List String) (e : JsonValue) (h1 : respOk st = false)
    (h2 : isAbortError e = false) :
    streamFromVenice (.opened st bt bp fr) =
      { committedStatus := 200,
        writes := [": connected\n\n",
                   sseErrorFrame (.obj [("status", .num st), ("message", .str bt)]),
                   sseEndFrame],
        ended := true } ∧
    streamFromVenice (.fetchFailed e) =
      { committedStatus := 200,
        writes := [": connected\n\n",
                   sseErrorFrame (.obj [("message",
                     jsOr (optGet e "message") (.str "upstream fetch error"))])],
        ended := false } := by
  constructor
  · simp [streamFromVenice, h1]
  · simp [streamFromVenice, h2]

/-- C8 amended witness: a 503 open failure yields the error frame plus
the terminal frame, while a thrown ECONNREFUSED yields only the error
frame and no close. -/
theorem c8_stream_amended_witness :
    streamFromVenice (.opened 503 "busy" true []) =
      { committedStatus := 200,
        writes := [": connected\n\n",
                   sseErrorFrame (.obj [("status", .num 503), ("message", .str "busy")]),
                   sseEndFrame],
        ended := true } ∧
    streamFromVenice (.fetchFailed (.obj [("message", .str "ECONNREFUSED")])) =
      { committedStatus := 200,
        writes := [": connected\n\n",
                   sseErrorFrame (.obj [("message",
                     jsOr (optGet (.obj [("message", .str "ECONNREFUSED")]) "message")
                       (.str "upstream fetch error"))])],
        ended := false } :=
  c8_stream_amended 503 "busy" true [] (.obj [("message", .str "ECONNREFUSED")])
    rfl rfl
